import Mathlib

/-!
A verification development for the automated exploration harness in the
IF-utils repository (src/mod/terp_connection.py and
src/specific_games/ATD/explore_possibilities.py).

Python strings are modelled as lists of characters (`PyStr`), Python dicts
used as ordered association tables as `List (PyStr × _)` in insertion
order, and the `ChainMap` context history as a list of context frames,
most recent first.  Each definition below is a direct translation of the
named Python function; doc comments cite the source location.
-/

/-- Model of a Python `str`: a list of characters. -/
abbrev PyStr := List Char

/-- The apostrophe character, kept out of string literals. -/
def apoChar : Char := Char.ofNat 39

/-- Build a `PyStr` from a literal, decoding the placeholder character
`|` as an apostrophe. -/
def pyS (s : String) : PyStr :=
  s.toList.map (fun c => if c = '|' then apoChar else c)

/-- Python `s.lower()` / `s.casefold()` restricted to the ASCII texts the
harness manipulates. -/
def pyLower (s : PyStr) : PyStr := s.map Char.toLower

/-- Python `s.lstrip()`: drop leading whitespace. -/
def pyLstrip (s : PyStr) : PyStr := s.dropWhile Char.isWhitespace

/-- Python `s.strip()`: drop leading and trailing whitespace. -/
def pyStrip (s : PyStr) : PyStr :=
  ((s.dropWhile Char.isWhitespace).reverse.dropWhile Char.isWhitespace).reverse

/-- Python `s.rstrip(".")`: drop trailing period characters. -/
def pyRstripDots (s : PyStr) : PyStr :=
  (s.reverse.dropWhile (fun c => c = '.')).reverse

/-- Python `a.startswith(b)`. -/
def pyStartswith (s pre : PyStr) : Bool := pre.isPrefixOf s

/-- Python `a.endswith(b)`. -/
def pyEndswith (s suf : PyStr) : Bool := suf.isSuffixOf s

/-- Python `b in a`: `b` occurs contiguously inside `a`. -/
def pyContains (hay sub : PyStr) : Bool := decide (sub <:+: hay)

/-- Python `s.count(".")`: the number of period characters in `s`. -/
def countDots (s : PyStr) : Nat := s.count '.'

/-- Python `s.split("\n")`. -/
def pySplitLines (s : PyStr) : List PyStr := s.splitOn '\n'

/-- Statistics record stored per strand in the progress store
(explore_possibilities.py, create_progress_checkpoint, lines 781-787):
dead ends, successes, total moves, elapsed wall-clock time, and the
maximum walkthrough length reached. -/
structure ProgressStats where
  dead_ends : Nat
  successes : Nat
  total_moves : Nat
  time : ℚ
  maximum_walkthrough_length : Nat
deriving DecidableEq, Repr

/-- The persisted progress table: strand key to statistics, in insertion
order, as a Python dict. -/
abbrev ProgressData := List (PyStr × ProgressStats)

/-- Translation of `is_redundant_strand` (explore_possibilities.py lines
499-511).  The Python loop returns `True` at the first key of the global
`progress_data` satisfying
`which_path.startswith(key.rstrip(".")) and which_path != key`,
and `False` if none does; this is `List.any` over the keys. -/
def is_redundant_strand (progress_keys : List PyStr) (which_path : PyStr) : Bool :=
  progress_keys.any (fun key => pyStartswith which_path (pyRstripDots key) && which_path != key)

/-- The redundancy predicate as the specification words it (spec.md section
4.6): some already-recorded strand is a strict prefix of the given strand
and the strand length, counted in command separators, exceeds the
always-retain minimum of 4. -/
def is_redundant_strand_claimed (progress_keys : List PyStr) (which_path : PyStr) : Bool :=
  progress_keys.any (fun key => key.isPrefixOf which_path && which_path != key)
    && decide (4 < countDots which_path)

/-- Translation of `clean_progress_data` (explore_possibilities.py lines
514-524): keep an entry when its key has at most 4 periods or is not
redundant with respect to the whole pre-compaction table. -/
def clean_progress_data (progress : ProgressData) : ProgressData :=
  progress.filter
    (fun kv => decide (countDots kv.1 ≤ 4) || !(is_redundant_strand (progress.map Prod.fst) kv.1))

/-- Python dict item assignment `progress_data[key] = s`: replace the value
in place when the key is present, otherwise append the pair. -/
def insert_or_replace (progress : ProgressData) (key : PyStr) (s : ProgressStats) : ProgressData :=
  if progress.any (fun kv => kv.1 == key) then
    progress.map (fun kv => if kv.1 == key then (kv.1, s) else kv)
  else
    progress ++ [(key, s)]

/-- Translation of `TerpConnection.create_progress_checkpoint`
(explore_possibilities.py lines 776-791): insert or overwrite the entry
for the current strand key (`text_walkthrough`), compact the table with
`clean_progress_data`, and rewrite the whole persisted file.  The entry
written carries the current global counters and elapsed time. -/
def create_progress_checkpoint (progress : ProgressData) (current_key : PyStr)
    (s : ProgressStats) : ProgressData :=
  clean_progress_data (insert_or_replace progress current_key s)

/-- Lexicographic comparison of strand keys by character code, as Python
compares `str` keys when `json.dump(..., sort_keys=True)` sorts them. -/
def pyStrLt : PyStr → PyStr → Bool
  | [], [] => false
  | [], _ :: _ => true
  | _ :: _, [] => false
  | a :: as, b :: bs =>
    if a.toNat < b.toNat then true
    else if b.toNat < a.toNat then false
    else pyStrLt as bs

/-- Insert one entry into a key-sorted table. -/
def insertSortedByKey (kv : PyStr × ProgressStats) : ProgressData → ProgressData
  | [] => [kv]
  | kv2 :: rest =>
    if pyStrLt kv.1 kv2.1 then kv :: kv2 :: rest
    else kv2 :: insertSortedByKey kv rest

/-- Serialization order of the persisted progress file: `json.dump` with
`sort_keys=True` writes entries sorted by key. -/
def sortByKey : ProgressData → ProgressData
  | [] => []
  | kv :: rest => insertSortedByKey kv (sortByKey rest)

/-- One progress entry with the elapsed-time field masked out. -/
def dropTime (kv : PyStr × ProgressStats) : PyStr × (Nat × Nat × Nat × Nat) :=
  (kv.1, (kv.2.dead_ends, kv.2.successes, kv.2.total_moves, kv.2.maximum_walkthrough_length))

/-- Byte-for-byte equivalence of two persisted tables modulo the
elapsed-time field: the serialized (key-sorted) entries agree on keys and
on every statistics field other than `time`. -/
def equiv_mod_time (a b : ProgressData) : Bool :=
  (sortByKey a).map dropTime == (sortByKey b).map dropTime

/-- Maximum of a statistic over the loaded table, as
`max([t[field] for t in progress_data.values()])` in `load_progress_data`
(explore_possibilities.py lines 1191-1195); `0` models the unreachable
empty-table case, which in Python raises and is caught by the enclosing
`except`. -/
def maxStat (f : ProgressStats → Nat) (progress : ProgressData) : Nat :=
  (progress.map (fun kv => f kv.2)).foldr max 0

/-- Composite of `load_progress_data` followed immediately by
`create_progress_checkpoint` with zero additional exploration: the global
counters are the maxima reconstructed by loading, the current strand key
is the one in force at the moment of saving, and the elapsed-time value
`new_time` is whatever the rebased clock reads. -/
def save_after_load (table : ProgressData) (current_key : PyStr) (new_time : ℚ) : ProgressData :=
  create_progress_checkpoint table current_key
    { dead_ends := maxStat (fun s => s.dead_ends) table
      successes := maxStat (fun s => s.successes) table
      total_moves := maxStat (fun s => s.total_moves) table
      time := new_time
      maximum_walkthrough_length := maxStat (fun s => s.maximum_walkthrough_length) table }

/-- The strand key of the freshly started game: `text_walkthrough` joins
the commands of the history (whose bottom frame has command
`[game start]`) with periods and upper-cases them, so with zero
exploration the current key is this string. -/
def gameStartKey : PyStr := pyS ("[GAME START].")

/-- Configuration of a terp connection: the pattern tables and policies
that `FrotzTerpConnection` declares as class attributes
(terp_connection.py lines 146-177) and that subclasses may override. -/
structure TerpConfig where
  mistake_messages : List PyStr
  disambiguation_messages : List PyStr
  failure_messages : List PyStr
  success_messages : List PyStr
  rooms : List PyStr
  save_every_turn : Bool
  inventory_every_turn : Bool

/-- A context frame as produced by `evaluate_context`: the defined field
names of the returned dictionary (terp_connection.py lines 627-643).
`none` in an `Option` field models the key being absent from the dict. -/
structure ContextFrame where
  command : PyStr
  output : PyStr
  failed : Bool
  success : Bool
  mistake : Bool
  turns : Nat
  room : Option PyStr
  inventory : Option (List PyStr)
  checkpoint : Option Nat
deriving DecidableEq, Repr

/-- One iteration body of the disambiguation/mistake scan
(terp_connection.py lines 676-685): does any configured disambiguation or
mistake phrase begin or end this (stripped, lower-cased) output line?
Both inner loops return the same frame, so their disjunction decides the
returned value. -/
def lineSignalsMistake (cfg : TerpConfig) (line : PyStr) : Bool :=
  let l := pyLower (pyStrip line)
  cfg.disambiguation_messages.any (fun m => pyStartswith l m || pyEndswith l m)
    || cfg.mistake_messages.any (fun m => pyStartswith l m || pyEndswith l m)

/-- The room scan of `evaluate_context` (terp_connection.py lines
687-694): the first nonempty stripped lower-cased line that begins with a
configured room name sets `room` to that line cut to the length of the
first matching room name. -/
def findRoom (cfg : TerpConfig) (output_lines : List PyStr) : Option PyStr :=
  let candidates :=
    (output_lines.filter (fun l => !(pyStrip l).isEmpty)).map (fun l => pyLower (pyStrip l))
  match candidates.find? (fun l => cfg.rooms.any (fun r => pyStartswith l r)) with
  | none => none
  | some l =>
    match cfg.rooms.find? (fun r => pyStartswith l r) with
    | none => none
    | some r => some (l.take r.length)

/-- Translation of `FrotzTerpConnection.evaluate_context`
(terp_connection.py lines 621-702).  `history_len` is the length of
`context_history.maps`; `save_id` stands for the path returned by
`save_terp_state()` and `inventory_result` for the list returned by
`_get_inventory()`, both of which are only consulted when the
corresponding branch runs.  The three early `return ret` statements of
the Python function become the first three branches. -/
def evaluate_context (cfg : TerpConfig) (history_len : Nat) (output command : PyStr)
    (save_id : Nat) (inventory_result : List PyStr) : ContextFrame :=
  let output_lines := (pySplitLines output).map pyStrip
  let output_lower := pyStrip (pyLower output)
  let ret0 : ContextFrame :=
    { command := command, output := output, failed := false, success := false,
      mistake := false, turns := 1 + history_len, room := none, inventory := none,
      checkpoint := none }
  if cfg.failure_messages.any (fun m => pyContains output_lower m) then
    { ret0 with failed := true }
  else if cfg.success_messages.any (fun m => pyContains output_lower m) then
    { ret0 with success := true }
  else if output_lines.any (fun l => lineSignalsMistake cfg l) then
    { ret0 with mistake := true }
  else
    let ret1 :=
      match findRoom cfg output_lines with
      | some r => { ret0 with room := some r }
      | none => ret0
    if !ret1.success && !ret1.failed && !ret1.mistake then
      let ret2 :=
        if cfg.save_every_turn then { ret1 with checkpoint := some save_id } else ret1
      if cfg.inventory_every_turn then { ret2 with inventory := some inventory_result } else ret2
    else ret1

/-- The pattern tables of `FrotzTerpConnection` itself (terp_connection.py
lines 146-177); `rooms` must be overridden by subclasses and is empty in
the base class. -/
def FrotzTerpConnection_config : TerpConfig where
  mistake_messages :=
    [pyS ("\"oops\" can only correct"), pyS ("after a few moments, you realise that"),
     pyS ("already closed."), pyS ("beg your pardon?"), pyS ("but you aren|t"),
     pyS ("but you aren|t in anything"), pyS ("darkness, noun.  an absence of light"),
     pyS ("digging would achieve nothing here"), pyS ("does not open."),
     pyS ("error: unknown reason for"), pyS ("for a while, but don|t achieve much."),
     pyS ("i didn|t understand that"), pyS ("i didn|t understand the way"),
     pyS ("i don|t think much is to be achieved"), pyS ("i only understood you as far as"),
     pyS ("impossible to place objects on top of it."), pyS ("is already here."),
     pyS ("it is pitch dark, and you can|t"), pyS ("no pronouns are known to the game"),
     pyS ("nothing practical results"), pyS ("real adventurers do not"),
     pyS ("seem to be something you can lock."), pyS ("seem to be something you can unlock."),
     pyS ("sorry, you can only have one"), pyS ("that would be less than courteous"),
     pyS ("that|s not a verb i recognise"), pyS ("that|s not something you need to refer to"),
     pyS ("the dreadful truth is, this is not a dream."),
     pyS ("this dangerous act would achieve little"), pyS ("to talk to someone, try"),
     pyS ("violence isn|t the answer"), pyS ("you aren|t feeling especially"),
     pyS ("you can only do that to"), pyS ("you can only get into something"),
     pyS ("you can only use multiple objects"), pyS ("you can|t put something inside"),
     pyS ("you can|t put something on"), pyS ("you can|t see any such thing"),
     pyS ("you can|t use multiple objects"), pyS ("you|re carrying too many"),
     pyS ("you excepted something not included"), pyS ("you jump on the spot, fruitlessly"),
     pyS ("you see nothing"), pyS ("you seem to have said too little"),
     pyS ("you seem to want to talk to someone, but")]
  disambiguation_messages :=
    [pyS ("which do you mean"), pyS ("please give one of the answers above")]
  failure_messages := [pyS ("*** you have died ***,")]
  success_messages := [pyS ("*** you have won ***")]
  rooms := []
  save_every_turn := true
  inventory_every_turn := true

/-- Python truthiness of a `bool`-or-`None` value: `None` is falsy. -/
def pyTruthy : Option Bool → Bool
  | none => false
  | some b => b

/-- The message recognized by `UNDO` as meaning nothing needed undoing. -/
def cantUndoMsg : PyStr := pyS ("you can|t \"undo\" what hasn|t been done")

/-- Result of the `UNDO` convenience function: the Python return value
(`True`, `False`, or the implicit `None` of falling off the end) together
with whether a `cannot_undo` problem report was written. -/
structure UndoResult where
  value : Option Bool
  documented : Bool
deriving DecidableEq, Repr

/-- Translation of `FrotzTerpConnection.UNDO` (terp_connection.py lines
555-568), as a function of the text the terp returns to the `undo`
command.  When the output is nonempty and contains neither recognized
phrase, the Python function documents the problem and falls off the end,
returning `None`. -/
def UNDO (undo_output : PyStr) : UndoResult :=
  if pyContains (pyLower undo_output) (pyLower cantUndoMsg) then
    { value := some true, documented := false }
  else if undo_output.isEmpty then
    { value := some false, documented := true }
  else if pyContains (pyLower undo_output) (pyS ("undone.]")) then
    { value := some true, documented := false }
  else
    { value := none, documented := true }

/-- Translation of `FrotzTerpConnection._restore_terp_to_save_file`
(terp_connection.py lines 504-511), as a function of the text returned to
the restore command sequence: success is the absence of `failed` in the
lower-cased output. -/
def restore_terp_to_save_file (restore_output : PyStr) : Bool :=
  !(pyContains (pyLower restore_output) (pyS ("failed")))

/-- Truthiness of the expression `self.UNDO` in Python: a bound method
object, not a call, and a bound method is always truthy. -/
def boundMethodTruthy : Bool := true

/-- Result of `_undo_if_possible_or_restore`: the returned value and
which terp commands the call actually issued. -/
structure UndoOrRestoreResult where
  value : Bool
  issued_undo : Bool
  issued_restore : Bool
deriving DecidableEq, Repr

/-- Translation of `FrotzTerpConnection._undo_if_possible_or_restore`
(terp_connection.py lines 513-521).  The guard in the source is
`if self.UNDO:` — the truthiness of the bound method object — so the
first branch is always taken: the function returns `True` without
issuing an UNDO or a RESTORE.  The arguments record what the terp would
have answered had either command been issued. -/
def undo_if_possible_or_restore (undo_output restore_output : PyStr) : UndoOrRestoreResult :=
  if boundMethodTruthy then
    { value := true, issued_undo := false, issued_restore := false }
  else
    { value := restore_terp_to_save_file restore_output,
      issued_undo := false, issued_restore := true }

/-- Modelled from the docstring of `_undo_if_possible_or_restore` and
spec.md section 4.4: try the native undo first, fall back to restoring
the save file when the undo does not succeed, and report whether either
succeeded. -/
def undo_or_restore_documented (undo_output restore_output : PyStr) : Bool :=
  if pyTruthy (UNDO undo_output).value then true
  else restore_terp_to_save_file restore_output

/-- The guard `if not self.UNDO():` of `FrotzTerpConnection._get_inventory`
(terp_connection.py lines 529-530): whether the warning about being
unable to undo the INVENTORY command is printed. -/
def get_inventory_warns (undo_output : PyStr) : Bool :=
  !(pyTruthy (UNDO undo_output).value)

/-- The guard `if not self.UNDO():` of `FrotzTerpConnection.LOOK`
(terp_connection.py lines 575-576): whether the warning about being
unable to undo the LOOK command is printed. -/
def LOOK_warns (undo_output : PyStr) : Bool :=
  !(pyTruthy (UNDO undo_output).value)

/-- What a call to `NonBlockingStreamReader.readline` does: it hands back
a line, hands back `None` (`noData`), or never returns
(`blocksForever`). -/
inductive ReadOutcome where
  | line (s : PyStr)
  | noData
  | blocksForever
deriving DecidableEq, Repr

/-- Translation of `NonBlockingStreamReader.readline` (terp_connection.py
lines 101-109): `self._q.get(block=timeout is not None, timeout=timeout)`
with `queue.Empty` mapped to `None`.  `queued` is the current content of
the queue; `arrival` is the line, if any, that the worker thread would
enqueue before a finite timeout elapses.  With `timeout=None` the call
passes `block=False`, so an empty queue yields `queue.Empty` immediately
and the function returns `None` without waiting. -/
def readline (queued : List PyStr) (timeout : Option ℚ) (arrival : Option PyStr) : ReadOutcome :=
  match queued with
  | l :: _ => ReadOutcome.line l
  | [] =>
    if timeout.isSome then
      match arrival with
      | some l => ReadOutcome.line l
      | none => ReadOutcome.noData
    else
      ReadOutcome.noData

/-- Modelled from the docstring of `readline` and spec.md section 4.1:
wait up to the timeout for more data before returning `None`, and when no
timeout is given, block until there is more data in the buffer. -/
def readline_documented (queued : List PyStr) (timeout : Option ℚ)
    (arrival : Option PyStr) : ReadOutcome :=
  match queued with
  | l :: _ => ReadOutcome.line l
  | [] =>
    match arrival with
    | some l => ReadOutcome.line l
    | none => if timeout.isSome then ReadOutcome.noData else ReadOutcome.blocksForever

/-- The retry loop of `FrotzTerpConnection._get_output` (terp_connection.py
lines 323-331): up to `remaining` further reads starting at read index
`i`, sleeping `sleep_time` seconds after each empty read and multiplying
the interval by 1.48.  Returns the first nonempty text and the list of
sleep intervals performed. -/
def get_output_retries (polls : Nat → PyStr) : Nat → Nat → ℚ → PyStr × List ℚ
  | 0, _, _ => ([], [])
  | n + 1, i, sleep_time =>
    let ret := polls i
    if ret.isEmpty then
      let rest := get_output_retries polls n (i + 1) (sleep_time * (37 / 25))
      (rest.1, sleep_time :: rest.2)
    else
      (ret, [])

/-- The post-processing `ret.lstrip().lstrip(">").lstrip()` on the text
`_get_output` returns (terp_connection.py line 334). -/
def get_output_post (s : PyStr) : PyStr :=
  pyLstrip ((pyLstrip s).dropWhile (fun c => c = '>'))

/-- Result of `_get_output`: the text returned to the caller, the sleep
intervals performed while waiting, and whether a `no data` problem report
was written. -/
structure GetOutputResult where
  text : PyStr
  sleeps : List ℚ
  documented_no_data : Bool
deriving DecidableEq, Repr

/-- Translation of `FrotzTerpConnection._get_output` (terp_connection.py
lines 314-334).  `polls i` is the text `self._reader.read_text()` returns
at the i-th read; read 0 is the initial read, and when it is empty and
`retry` holds the loop performs at most 20 further reads with sleep
intervals starting at 0.1 seconds and growing by the factor 1.48.  If
every read comes back empty a `no data` problem is documented and the
empty text is returned. -/
def get_output (polls : Nat → PyStr) (retry : Bool) : GetOutputResult :=
  let ret := polls 0
  if ret.isEmpty && retry then
    let lr := get_output_retries polls 20 1 (1 / 10)
    { text := get_output_post lr.1, sleeps := lr.2, documented_no_data := lr.1.isEmpty }
  else
    { text := get_output_post ret, sleeps := [], documented_no_data := false }

/-- State of one search node: the `context_history` chain (most recent
frame first) and the save state the terp currently holds, identified by
the save-file id it was last saved to or restored from. -/
structure SearchState where
  history : List ContextFrame
  terp : Nat
deriving DecidableEq, Repr

/-- The checkpoint in force for the collapsed chain
`dict(terp_proc.context_history)`: the value from the most recent frame
that carries the key. -/
def effective_checkpoint : List ContextFrame → Option Nat
  | [] => none
  | f :: rest =>
    match f.checkpoint with
    | some c => some c
    | none => effective_checkpoint rest

/-- The guard at the top of the command loop of `make_moves`
(explore_possibilities.py lines 1066-1067): if the current top frame has
no checkpoint, save the terp state and record the fresh save file on that
frame. -/
def ensure_checkpoint (st : SearchState) (fresh : Nat) : SearchState :=
  match st.history with
  | [] => st
  | top :: rest =>
    if top.checkpoint.isSome then st
    else { st with history := { top with checkpoint := some fresh } :: rest }

/-- How one command attempt inside `make_moves` ends: a classified
outcome, or an unexpected exception raised either before the new frame
was pushed (inside `execute_command` or the checkpoint-existence check,
lines 1076-1079) or after it (the bookkeeping, `record_solution`, or the
recursive `make_moves` call, lines 1080-1096). -/
inductive MoveOutcome where
  | success
  | mistake
  | failure
  | continuing
  | exnBeforePush
  | exnAfterPush
deriving DecidableEq, Repr

/-- Result of one iteration of the command loop of `make_moves`: the
search state afterwards, whether the `except Exception` clause documented
a `general_exception`, and whether an exception escaped the iteration. -/
structure AttemptResult where
  state : SearchState
  exception_logged : Bool
  run_aborted : Bool
deriving DecidableEq, Repr

/-- Translation of one iteration of the command loop of `make_moves`
(explore_possibilities.py lines 1072-1105).  `base_ckpt` is
`starting_frame["checkpoint"]`, captured from the collapsed chain before
the loop.  The `try` block pushes `new_frame` unless the exception struck
before the push; the `except Exception` clause catches and documents any
exception, so no iteration aborts the run; the `finally` clause always
restores the terp to `base_ckpt` and then drops the top history frame.
A `continuing` outcome covers the recursive call returning normally,
which by the node-level property proved below leaves the history as it
found it. -/
def try_one_command (st : SearchState) (base_ckpt : Nat) (out : MoveOutcome)
    (new_frame : ContextFrame) : AttemptResult :=
  let pushed : List ContextFrame :=
    match out with
    | MoveOutcome.exnBeforePush => st.history
    | _ => new_frame :: st.history
  let logged : Bool :=
    match out with
    | MoveOutcome.exnBeforePush => true
    | MoveOutcome.exnAfterPush => true
    | _ => false
  { state := { history := pushed.tail, terp := base_ckpt },
    exception_logged := logged,
    run_aborted := false }

/-- The node-entry pruning test of `make_moves` (explore_possibilities.py
lines 1059-1060): return immediately when the current strand key is
redundant with respect to the progress store. -/
def make_moves_prunes (progress_keys : List PyStr) (current_strand : PyStr) : Bool :=
  is_redundant_strand progress_keys current_strand

/-- A concrete context frame used to instantiate the search-state
theorems. -/
def exFrame : ContextFrame :=
  { command := pyS ("wait"), output := pyS ("time passes."), failed := false,
    success := false, mistake := false, turns := 2, room := none,
    inventory := none, checkpoint := some 0 }

theorem pyStartswith_iff {s pre : PyStr} : pyStartswith s pre = true ↔ pre <+: s := by
  simp [pyStartswith]

theorem pyRstripDots_isPre (s : PyStr) : pyRstripDots s <+: s := by
  rw [← List.reverse_suffix]
  unfold pyRstripDots
  rw [List.reverse_reverse]
  exact List.dropWhile_suffix _

/-- Claim C2, counterexample.  With the single recorded strand `A.` the
strand `A. B.` has only two command separators — at or below the
always-retain minimum of four — so the predicate the claim describes
rejects it, yet `is_redundant_strand` accepts it: the source predicate
has no length condition at all. -/
theorem c2_counterexample :
    is_redundant_strand [pyS ("A.")] (pyS ("A. B.")) = true ∧
      is_redundant_strand_claimed [pyS ("A.")] (pyS ("A. B.")) = false := by
  decide

/-- Claim C2, amended.  `is_redundant_strand` returns `True` exactly when
some recorded key, with its trailing periods stripped, is a prefix of the
given strand and the strand differs from that key; no length condition is
applied (the always-retain minimum lives only in `clean_progress_data`).
Because the node-entry test of `make_moves` is exactly this predicate, a
store entry equal to the current strand key itself does not prune the
node: the second conjunct shows the exact-match case is never
redundant. -/
theorem c2_redundancy_characterized :
    ∀ (keys : List PyStr) (p : PyStr),
      (make_moves_prunes keys p = true ↔
        ∃ key ∈ keys, pyRstripDots key <+: p ∧ p ≠ key) ∧
      make_moves_prunes [p] p = false := by
  intro keys p
  constructor
  · unfold make_moves_prunes is_redundant_strand
    rw [List.any_eq_true]
    constructor
    · rintro ⟨key, hkey, hcond⟩
      rw [Bool.and_eq_true] at hcond
      exact ⟨key, hkey, pyStartswith_iff.mp hcond.1, by simpa using hcond.2⟩
    · rintro ⟨key, hkey, hpre, hne⟩
      refine ⟨key, hkey, ?_⟩
      rw [Bool.and_eq_true]
      exact ⟨pyStartswith_iff.mpr hpre, by simpa using hne⟩
  · unfold make_moves_prunes is_redundant_strand
    simp

/-- Claim C4.  Evaluating `_undo_if_possible_or_restore` at a state where
the undo would fail (the terp returns no text to `undo`, so `UNDO()`
would return `False`) and where restoring would also fail: the function
nevertheless returns `True` and issues neither command, because its guard
`if self.UNDO:` tests the truthiness of the bound method object instead
of calling it.  The documented fall-back semantics yield `False` at the
same input. -/
theorem c4_undo_or_restore_never_restores :
    undo_if_possible_or_restore [] (pyS ("restore failed")) =
        { value := true, issued_undo := false, issued_restore := false } ∧
      (UNDO []).value = some false ∧
      restore_terp_to_save_file (pyS ("restore failed")) = false ∧
      undo_or_restore_documented [] (pyS ("restore failed")) = false := by
  decide

/-- Claim C8.  With no timeout and an empty queue, `readline` performs a
non-blocking `Queue.get` (`block = timeout is not None`) and returns
`None` immediately, where the docstring and the spec promise it blocks
until a line is available; with a finite timeout that elapses without
data it returns `None` as claimed. -/
theorem c8_readline_nonblocking :
    readline [] none none = ReadOutcome.noData ∧
      readline_documented [] none none = ReadOutcome.blocksForever ∧
      (∀ t : ℚ, readline [] (some t) none = ReadOutcome.noData) ∧
      (∀ t : ℚ, readline_documented [] (some t) none = ReadOutcome.noData) :=
  ⟨rfl, rfl, fun _ => rfl, fun _ => rfl⟩

/-- Claim C6.  After `clean_progress_data`, a recorded strand B having a
distinct recorded prefix A with more than four command separators is
gone, and every entry whose key has at most four separators survives
compaction unconditionally. -/
theorem c6_compaction_invariant (progress : ProgressData) (A B : PyStr)
    (sA sB : ProgressStats) (hA : (A, sA) ∈ progress) (hB : (B, sB) ∈ progress)
    (hpre : A <+: B) (hne : A ≠ B) (hlen : 4 < countDots A) :
    (B, sB) ∉ clean_progress_data progress ∧
      ∀ kv ∈ progress, countDots kv.1 ≤ 4 → kv ∈ clean_progress_data progress := by
  have hcntB : 4 < countDots B := lt_of_lt_of_le hlen (hpre.count_le '.')
  have hred : is_redundant_strand (progress.map Prod.fst) B = true := by
    apply List.any_eq_true.mpr
    refine ⟨A, List.mem_map.mpr ⟨(A, sA), hA, rfl⟩, ?_⟩
    rw [Bool.and_eq_true]
    constructor
    · exact pyStartswith_iff.mpr ((pyRstripDots_isPre A).trans hpre)
    · simpa using fun h => hne h.symm
  constructor
  · intro hmem
    unfold clean_progress_data at hmem
    have hpred := (List.mem_filter.mp hmem).2
    simp only [hred, Bool.not_true, Bool.or_false, decide_eq_true_eq] at hpred
    omega
  · intro kv hkv hcnt
    unfold clean_progress_data
    exact List.mem_filter.mpr ⟨hkv, by simp [hcnt]⟩

/-- Claim C6, witness: a five-separator strand and its six-separator
extension, both recorded; compaction removes the extension, and any entry
at or below four separators stays. -/
theorem c6_witness :
    (pyS ("[GAME START]. UP. GET ALL. DOWN. EAST. WAIT."), ProgressStats.mk 1 0 7 3 9) ∉
        clean_progress_data
          [(pyS ("[GAME START]. UP. GET ALL. DOWN. EAST."), ProgressStats.mk 0 0 5 2 8),
           (pyS ("[GAME START]. UP. GET ALL. DOWN. EAST. WAIT."), ProgressStats.mk 1 0 7 3 9)] ∧
      ∀ kv ∈ [(pyS ("[GAME START]. UP. GET ALL. DOWN. EAST."), ProgressStats.mk 0 0 5 2 8),
              (pyS ("[GAME START]. UP. GET ALL. DOWN. EAST. WAIT."), ProgressStats.mk 1 0 7 3 9)],
        countDots kv.1 ≤ 4 →
          kv ∈ clean_progress_data
            [(pyS ("[GAME START]. UP. GET ALL. DOWN. EAST."), ProgressStats.mk 0 0 5 2 8),
             (pyS ("[GAME START]. UP. GET ALL. DOWN. EAST. WAIT."), ProgressStats.mk 1 0 7 3 9)] :=
  c6_compaction_invariant
    [(pyS ("[GAME START]. UP. GET ALL. DOWN. EAST."), ProgressStats.mk 0 0 5 2 8),
     (pyS ("[GAME START]. UP. GET ALL. DOWN. EAST. WAIT."), ProgressStats.mk 1 0 7 3 9)]
    (pyS ("[GAME START]. UP. GET ALL. DOWN. EAST."))
    (pyS ("[GAME START]. UP. GET ALL. DOWN. EAST. WAIT."))
    (ProgressStats.mk 0 0 5 2 8) (ProgressStats.mk 1 0 7 3 9)
    (by decide) (by decide) (by decide) (by decide) (by decide)

theorem insertSortedByKey_perm (kv : PyStr × ProgressStats) (l : ProgressData) :
    List.Perm (insertSortedByKey kv l) (kv :: l) := by
  induction l with
  | nil => exact List.Perm.refl _
  | cons kv2 rest ih =>
    unfold insertSortedByKey
    by_cases h : pyStrLt kv.1 kv2.1
    · rw [if_pos h]
    · rw [if_neg h]
      exact (ih.cons kv2).trans (List.Perm.swap kv kv2 rest)

theorem sortByKey_perm (l : ProgressData) : List.Perm (sortByKey l) l := by
  induction l with
  | nil => exact List.Perm.refl _
  | cons kv rest ih =>
    unfold sortByKey
    exact (insertSortedByKey_perm kv (sortByKey rest)).trans (ih.cons kv)

theorem insertSortedByKey_map (g : PyStr × ProgressStats → PyStr × ProgressStats)
    (hg : ∀ x, (g x).1 = x.1) (kv : PyStr × ProgressStats) (l : ProgressData) :
    insertSortedByKey (g kv) (l.map g) = (insertSortedByKey kv l).map g := by
  induction l with
  | nil => rfl
  | cons kv2 rest ih =>
    rw [List.map_cons]
    unfold insertSortedByKey
    rw [hg kv, hg kv2]
    by_cases h : pyStrLt kv.1 kv2.1
    · rw [if_pos h, if_pos h, List.map_cons, List.map_cons]
    · rw [if_neg h, if_neg h, List.map_cons, ih]

theorem sortByKey_map (g : PyStr × ProgressStats → PyStr × ProgressStats)
    (hg : ∀ x, (g x).1 = x.1) (l : ProgressData) :
    sortByKey (l.map g) = (sortByKey l).map g := by
  induction l with
  | nil => rfl
  | cons kv rest ih =>
    rw [List.map_cons]
    unfold sortByKey
    rw [ih, insertSortedByKey_map g hg]

theorem clean_progress_data_eq_self {l : ProgressData}
    (h : ∀ kv ∈ l, countDots kv.1 ≤ 4) : clean_progress_data l = l := by
  unfold clean_progress_data
  exact List.filter_eq_self.mpr (fun kv hkv => by simp [h kv hkv])

/-- Claim C7, counterexample.  A loaded table whose single entry is a
six-separator strand is not re-persisted equivalently: saving with zero
additional exploration inserts the current strand key `[GAME START].`,
whose stripped form is a prefix of every strand, so compaction prunes the
long entry and the persisted table changes beyond the elapsed-time
field. -/
theorem c7_counterexample :
    equiv_mod_time
        [(pyS ("[GAME START]. UP. GET ALL. DOWN. WAIT. EAST."), ProgressStats.mk 3 1 9 5 6)]
        (save_after_load
          [(pyS ("[GAME START]. UP. GET ALL. DOWN. WAIT. EAST."), ProgressStats.mk 3 1 9 5 6)]
          gameStartKey 11) = false := by
  decide

theorem equiv_after_overwrite (table : ProgressData) (ck : PyStr) (ns : ProgressStats)
    (h4 : ∀ kv ∈ table, countDots kv.1 ≤ 4)
    (hck : ∃ s, (ck, s) ∈ table)
    (hstats : ∀ s, (ck, s) ∈ table → dropTime (ck, s) = dropTime (ck, ns)) :
    equiv_mod_time table (create_progress_checkpoint table ck ns) = true := by
  obtain ⟨s0, hs0⟩ := hck
  unfold create_progress_checkpoint insert_or_replace
  have hany : (table.any fun kv => kv.1 == ck) = true :=
    List.any_eq_true.mpr ⟨(ck, s0), hs0, by simp⟩
  rw [if_pos hany]
  have hg : ∀ x : PyStr × ProgressStats,
      ((fun kv => if kv.1 == ck then (kv.1, ns) else kv) x).1 = x.1 := by
    intro x
    by_cases h : x.1 == ck <;> simp [h]
  have hkeys : ∀ kv ∈ table.map (fun kv => if kv.1 == ck then (kv.1, ns) else kv),
      countDots kv.1 ≤ 4 := by
    intro kv hkv
    obtain ⟨kv0, hkv0, rfl⟩ := List.mem_map.mp hkv
    rw [hg kv0]
    exact h4 kv0 hkv0
  rw [clean_progress_data_eq_self hkeys]
  unfold equiv_mod_time
  rw [sortByKey_map _ hg, beq_iff_eq, List.map_map]
  apply List.map_congr_left
  intro x hx
  have hxmem : x ∈ table := (sortByKey_perm table).mem_iff.mp hx
  by_cases hxk : x.1 = ck
  · have hx1 : (ck, x.2) ∈ table := by
      rw [← hxk]
      simpa using hxmem
    have hrw := hstats x.2 hx1
    simp only [Function.comp_apply, hxk, beq_self_eq_true, if_pos]
    rw [← hrw, ← hxk]
  · simp [Function.comp_apply, hxk]

/-- Claim C7, amended.  Re-saving a loaded table with zero additional
exploration is byte-for-byte idempotent modulo the elapsed-time field
exactly when the loaded table is already a fixed point of the insertion:
every key has at most four command separators (so compaction removes
nothing) and the current strand key is already recorded with the maximal
statistics that loading reconstructs.  Otherwise
`create_progress_checkpoint` inserts the current strand key and the
compaction it triggers can remove entries, as the counterexample
shows. -/
theorem c7_save_after_load_equiv (table : ProgressData) (ck : PyStr) (t : ℚ)
    (h4 : ∀ kv ∈ table, countDots kv.1 ≤ 4)
    (hck : ∃ s, (ck, s) ∈ table)
    (hmax : ∀ s, (ck, s) ∈ table →
      s.dead_ends = maxStat (fun x => x.dead_ends) table ∧
        s.successes = maxStat (fun x => x.successes) table ∧
        s.total_moves = maxStat (fun x => x.total_moves) table ∧
        s.maximum_walkthrough_length = maxStat (fun x => x.maximum_walkthrough_length) table) :
    equiv_mod_time table (save_after_load table ck t) = true := by
  unfold save_after_load
  apply equiv_after_overwrite table ck _ h4 hck
  intro s hs
  obtain ⟨h1, h2, h3, h5⟩ := hmax s hs
  unfold dropTime
  simp [h1, h2, h3, h5]

/-- Claim C7, witness: a loaded table whose single entry is the
game-start strand key round-trips equivalently modulo the elapsed-time
field. -/
theorem c7_witness :
    equiv_mod_time [(gameStartKey, ProgressStats.mk 2 1 8 5 3)]
      (save_after_load [(gameStartKey, ProgressStats.mk 2 1 8 5 3)] gameStartKey 12) = true :=
  c7_save_after_load_equiv [(gameStartKey, ProgressStats.mk 2 1 8 5 3)] gameStartKey 12
    (by decide)
    ⟨ProgressStats.mk 2 1 8 5 3, by simp⟩
    (by
      intro s hs
      have hseq : s = ProgressStats.mk 2 1 8 5 3 :=
        congrArg Prod.snd (List.mem_singleton.mp hs)
      subst hseq
      refine ⟨?_, ?_, ?_, ?_⟩ <;> decide)

/-- Claim C3.  The classification rules of `evaluate_context` run in
strict order, failure phrases first, so an output that contains a
configured failure phrase anywhere in its lower-cased text — even when a
disambiguation or mistake phrase also begins or ends one of its lines —
produces a frame marked `failed` and never `mistake` (and not
`success`). -/
theorem c3_failure_beats_mistake (cfg : TerpConfig) (history_len : Nat)
    (output command : PyStr) (save_id : Nat) (inventory_result : List PyStr)
    (hfail : ∃ m ∈ cfg.failure_messages, pyContains (pyStrip (pyLower output)) m = true)
    (hmist : ∃ l ∈ (pySplitLines output).map pyStrip, lineSignalsMistake cfg l = true) :
    (evaluate_context cfg history_len output command save_id inventory_result).failed = true ∧
      (evaluate_context cfg history_len output command save_id inventory_result).mistake
          = false ∧
      (evaluate_context cfg history_len output command save_id inventory_result).success
          = false := by
  have hany : (cfg.failure_messages.any fun m => pyContains (pyStrip (pyLower output)) m)
      = true := by
    obtain ⟨m, hm, h⟩ := hfail
    exact List.any_eq_true.mpr ⟨m, hm, h⟩
  unfold evaluate_context
  simp [hany]

/-- Claim C3, witness: the real `FrotzTerpConnection` configuration, an
output containing both the configured failure phrase and the mistake
phrase `you can|t see any such thing` at the end of a line; the frame is
`failed`, not `mistake`. -/
theorem c3_witness :
    (evaluate_context FrotzTerpConnection_config 0
        (pyS ("*** you have died ***, because you can|t see any such thing"))
        (pyS ("east")) 0 []).failed = true ∧
      (evaluate_context FrotzTerpConnection_config 0
        (pyS ("*** you have died ***, because you can|t see any such thing"))
        (pyS ("east")) 0 []).mistake = false ∧
      (evaluate_context FrotzTerpConnection_config 0
        (pyS ("*** you have died ***, because you can|t see any such thing"))
        (pyS ("east")) 0 []).success = false :=
  c3_failure_beats_mistake FrotzTerpConnection_config 0
    (pyS ("*** you have died ***, because you can|t see any such thing"))
    (pyS ("east")) 0 [] (by decide) (by decide)

/-- Claim C5.  A frame produced by `evaluate_context` carries a
checkpoint reference exactly when none of its `mistake`, `failed`,
`success` flags is set and the save-every-turn policy is enabled; in
particular frames classified as terminal never carry one. -/
theorem c5_checkpoint_iff (cfg : TerpConfig) (history_len : Nat) (output command : PyStr)
    (save_id : Nat) (inventory_result : List PyStr) :
    ((evaluate_context cfg history_len output command save_id inventory_result).checkpoint.isSome
        = true) ↔
      ((evaluate_context cfg history_len output command save_id inventory_result).mistake
            = false ∧
        (evaluate_context cfg history_len output command save_id inventory_result).failed
            = false ∧
        (evaluate_context cfg history_len output command save_id inventory_result).success
            = false ∧
        cfg.save_every_turn = true) := by
  simp only [evaluate_context]
  by_cases hf : (cfg.failure_messages.any fun m => pyContains (pyStrip (pyLower output)) m)
      = true
  · simp [hf]
  · by_cases hs : (cfg.success_messages.any fun m => pyContains (pyStrip (pyLower output)) m)
        = true
    · simp [hf, hs]
    · by_cases hm : (((pySplitLines output).map pyStrip).any fun l => lineSignalsMistake cfg l)
          = true
      · simp [hf, hs, hm]
      · cases hroom : findRoom cfg ((pySplitLines output).map pyStrip) <;>
          cases hsave : cfg.save_every_turn <;>
          cases hinv : cfg.inventory_every_turn <;>
          simp [hf, hs, hm, hroom, hsave, hinv]

theorem get_output_retries_all_empty (polls : Nat → PyStr) :
    ∀ (n i : Nat) (s : ℚ), (∀ j, j < n → polls (i + j) = []) →
      get_output_retries polls n i s
        = ([], (List.range n).map (fun k => s * (37 / 25) ^ k)) := by
  intro n
  induction n with
  | zero => intro i s _; rfl
  | succ n ih =>
    intro i s h
    have h0 : polls i = [] := by simpa using h 0 (Nat.succ_pos n)
    unfold get_output_retries
    rw [h0]
    simp only [List.isEmpty_nil, if_true]
    rw [ih (i + 1) (s * (37 / 25)) (fun j hj => by
      have := h (j + 1) (Nat.succ_lt_succ hj)
      rwa [show i + (j + 1) = i + 1 + j by omega] at this)]
    rw [List.range_succ_eq_map, List.map_cons, List.map_map]
    refine congrArg (Prod.mk []) ?_
    rw [pow_zero, mul_one]
    refine congrArg (List.cons s) ?_
    apply List.map_congr_left
    intro k _
    simp only [Function.comp_apply, pow_succ]
    ring

/-- Claim C9.  When the first read returns no text and retrying is
requested, `_get_output` performs exactly twenty further reads, sleeping
between consecutive empty reads for intervals that start at 0.1 seconds
and grow by the fixed factor 1.48; if every read is empty it documents a
`no data` problem and returns the empty text instead of raising. -/
theorem c9_get_output_soft_timeout (polls : Nat → PyStr)
    (h : ∀ i, i ≤ 20 → polls i = []) :
    get_output polls true =
      { text := [],
        sleeps := (List.range 20).map (fun k => (1 / 10 : ℚ) * (37 / 25) ^ k),
        documented_no_data := true } := by
  have h0 : polls 0 = [] := h 0 (by omega)
  unfold get_output
  rw [h0]
  simp only [List.isEmpty_nil, Bool.true_and, if_true]
  rw [get_output_retries_all_empty polls 20 1 (1 / 10) (fun j hj => h (1 + j) (by omega))]
  rfl

/-- Claim C9, witness: a reader that never produces text makes
`_get_output` return empty text after the twenty-read backoff loop,
documenting the `no data` condition. -/
theorem c9_witness :
    get_output (fun _ => []) true =
      { text := [],
        sleeps := (List.range 20).map (fun k => (1 / 10 : ℚ) * (37 / 25) ^ k),
        documented_no_data := true } :=
  c9_get_output_soft_timeout (fun _ => []) (fun _ _ => rfl)

/-- Claim C10, counterexample.  On unrecognized nonempty undo output,
`UNDO` does return `None`, but `_undo_if_possible_or_restore` does not
treat the case like an explicit undo failure: it never calls `UNDO` at
all (its guard tests the truthiness of the bound method) and returns
`True` without issuing a restore, even though the fall-back restore the
claim describes would run and report failure here. -/
theorem c10_counterexample :
    UNDO (pyS ("i beg your pardon?")) = { value := none, documented := true } ∧
      undo_or_restore_documented (pyS ("i beg your pardon?")) (pyS ("restore failed")) = false ∧
      undo_if_possible_or_restore (pyS ("i beg your pardon?")) (pyS ("restore failed")) =
        { value := true, issued_undo := false, issued_restore := false } := by
  decide

/-- Claim C10, amended.  For any nonempty undo output containing neither
the `undone.]` confirmation nor the nothing-to-undo message, `UNDO`
documents a `cannot_undo` problem and returns `None` — neither the `True`
nor the `False` its docstring promises.  The callers that actually call
it and test its result, `_get_inventory` and `LOOK`, treat that `None`
exactly as they treat an explicit `False` (both print the
failed-to-undo warning); `_undo_if_possible_or_restore`, however, never
calls `UNDO` — its guard tests the bound method object — and returns
`True` without issuing any command, whatever the undo output. -/
theorem c10_undo_returns_none (txt : PyStr) (hne : txt ≠ [])
    (h1 : pyContains (pyLower txt) (pyLower cantUndoMsg) = false)
    (h2 : pyContains (pyLower txt) (pyS ("undone.]")) = false) :
    UNDO txt = { value := none, documented := true } ∧
      (UNDO txt).value ≠ some true ∧ (UNDO txt).value ≠ some false ∧
      get_inventory_warns txt = true ∧ get_inventory_warns [] = true ∧
      LOOK_warns txt = true ∧ LOOK_warns [] = true ∧
      (∀ restore_output, undo_if_possible_or_restore txt restore_output =
        { value := true, issued_undo := false, issued_restore := false }) := by
  have hE : txt.isEmpty = false := by
    cases txt with
    | nil => exact absurd rfl hne
    | cons a l => rfl
  have hUNDO : UNDO txt = { value := none, documented := true } := by
    unfold UNDO
    rw [h1, h2, hE]
    rfl
  refine ⟨hUNDO, ?_, ?_, ?_, rfl, ?_, rfl, fun _ => rfl⟩
  · rw [hUNDO]
    exact fun h => Option.noConfusion h
  · rw [hUNDO]
    exact fun h => Option.noConfusion h
  · unfold get_inventory_warns
    rw [hUNDO]
    rfl
  · unfold LOOK_warns
    rw [hUNDO]
    rfl

/-- Claim C10, witness: a concrete unrecognized undo response. -/
theorem c10_witness :
    UNDO (pyS ("time passes.")) = { value := none, documented := true } ∧
      (UNDO (pyS ("time passes."))).value ≠ some true ∧
      (UNDO (pyS ("time passes."))).value ≠ some false ∧
      get_inventory_warns (pyS ("time passes.")) = true ∧
      get_inventory_warns [] = true ∧
      LOOK_warns (pyS ("time passes.")) = true ∧ LOOK_warns [] = true ∧
      (∀ restore_output, undo_if_possible_or_restore (pyS ("time passes.")) restore_output =
        { value := true, issued_undo := false, issued_restore := false }) :=
  c10_undo_returns_none (pyS ("time passes.")) (by decide) (by decide) (by decide)

/-- Claim C1, counterexample.  When the unexpected exception strikes
before the new frame is pushed — inside `execute_command` or the
checkpoint-existence check — the `finally` clause still restores and
pops, so it pops the frame that was the baseline of the node: the history
after the iteration is not the history before it, and siblings are no
longer tried from an identical baseline. -/
theorem c1_counterexample :
    (try_one_command { history := [exFrame], terp := 0 } 0
        MoveOutcome.exnBeforePush exFrame).state.history ≠ [exFrame] := by
  decide

/-- Claim C1, amended.  Each iteration of the command loop of
`make_moves` catches and logs every unexpected exception and never lets
one abort the run, and its `finally` clause always restores the terp to
the checkpoint captured before the command and pops one history frame.
For every outcome in which the new frame was pushed — success, mistake,
failure, continuing, or an exception raised after the push, including
inside the recursive call — this leaves the history exactly as it was, so
siblings start from an identical baseline; but when the exception is
raised before the push, the pop removes the baseline frame itself and the
history shrinks by one. -/
theorem c1_restore_then_pop (st : SearchState) (base_ckpt : Nat) (fr : ContextFrame) :
    (∀ out, (try_one_command st base_ckpt out fr).run_aborted = false) ∧
      (∀ out, (try_one_command st base_ckpt out fr).state.terp = base_ckpt) ∧
      (∀ out, out ≠ MoveOutcome.exnBeforePush →
        (try_one_command st base_ckpt out fr).state.history = st.history) ∧
      (try_one_command st base_ckpt MoveOutcome.exnBeforePush fr).state.history
          = st.history.tail ∧
      (try_one_command st base_ckpt MoveOutcome.exnAfterPush fr).exception_logged = true ∧
      (try_one_command st base_ckpt MoveOutcome.exnBeforePush fr).exception_logged = true := by
  refine ⟨fun out => rfl, fun out => rfl, fun out hout => ?_, rfl, rfl, rfl⟩
  cases out <;> first | rfl | exact absurd rfl hout

/-- Claim C1, witness: a successful command attempt at a concrete state
restores the baseline history and the captured checkpoint. -/
theorem c1_witness :
    (try_one_command { history := [exFrame], terp := 3 } 7
        MoveOutcome.success exFrame).state.history = [exFrame] :=
  (c1_restore_then_pop { history := [exFrame], terp := 3 } 7 exFrame).2.2.1
    MoveOutcome.success (by decide)
